import Mathlib

set_option autoImplicit false

/-
Verification of the trading-core components of the repository:
the paper-trading position ledger and P&L accounting
(src/backend/services/position_service.py over the positions table of
src/backend/database.py), the signal policy of the prediction service
(src/backend/services/prediction_service.py), and the technical-indicator
library (src/backend/utils/indicators.py).

Conventions of the embedding:
* float values (prices, quantities, leverage, confidences) are embedded as
  exact rationals;
* SQL timestamps (CURRENT_TIMESTAMP) are embedded as an abstract clock value
  of type Nat supplied by the caller;
* the positions table is embedded as a list of rows; SQL UPDATE/DELETE with
  a WHERE clause becomes List.map / List.filter over the rows;
* Python None for an optional value is Option.none; SQL NULL likewise;
* randomness (random.choice, random.uniform in the dummy-prediction path)
  is embedded as explicit parameters for the drawn values.
-/

namespace Yavuzx

/-- Row of the positions table, matching the Position pydantic model
(src/backend/models/paper_trading.py) and the CREATE TABLE statement of
src/backend/database.py. -/
structure Position where
  id : Nat
  asset_class : String
  asset_symbol : String
  position_type : String
  entry_price : ℚ
  quantity : ℚ
  leverage : ℚ
  entry_time : Nat
  exit_price : Option ℚ
  exit_time : Option Nat
  status : String
  notes : Option String
  created_at : Nat
  updated_at : Nat
deriving DecidableEq, Repr

/-- P&L record returned by PositionService._calculate_pnl (the four float
entries of its result dict). -/
structure PnLData where
  pnl : ℚ
  pnl_percent : ℚ
  pnl_with_leverage : ℚ
  pnl_with_leverage_percent : ℚ
deriving DecidableEq, Repr

/-- The ten aggregate fields of the PortfolioStats pydantic model. -/
structure PortfolioStats where
  total_positions : Nat
  open_positions : Nat
  closed_positions : Nat
  total_pnl : ℚ
  total_pnl_percent : ℚ
  win_rate : ℚ
  largest_win : ℚ
  largest_loss : ℚ
  avg_win : ℚ
  avg_loss : ℚ
deriving DecidableEq, Repr

namespace PositionService

/-- PositionService.get_position: SELECT * FROM positions WHERE id = ?
(first row with the given primary key, None when absent). -/
def get_position (db : List Position) (pid : Nat) : Option Position :=
  db.find? (fun p => p.id == pid)

/-- One row under the SET clauses built by PositionService.update_position:
only the supplied fields are written (a None argument contributes no SET
clause, so notes cannot be erased through update), and updated_at is bumped. -/
def apply_update (quantity leverage : Option ℚ) (notes : Option String)
    (now : Nat) (p : Position) : Position :=
  { p with
    quantity := quantity.getD p.quantity
    leverage := leverage.getD p.leverage
    notes := match notes with
      | some n => some n
      | none => p.notes
    updated_at := now }

/-- PositionService.update_position: with no supplied field it just reads the
row back; otherwise UPDATE positions SET ... WHERE id = ? (no status check),
then reads the row back.  Returns the table after the call and the returned
Position (None when the id is absent). -/
def update_position (db : List Position) (pid : Nat)
    (quantity leverage : Option ℚ) (notes : Option String) (now : Nat) :
    List Position × Option Position :=
  if quantity.isNone ∧ leverage.isNone ∧ notes.isNone then
    (db, get_position db pid)
  else
    let db2 := db.map (fun p =>
      if p.id == pid then apply_update quantity leverage notes now p else p)
    (db2, get_position db2 pid)

/-- PositionService.close_position: UPDATE positions SET status=CLOSED,
exit_price=?, exit_time=now, notes=?, updated_at=now WHERE id = ?.  The
notes column is written unconditionally with the supplied value (NULL when
the argument is None), and there is no status guard. -/
def close_position (db : List Position) (pid : Nat) (exit_price : ℚ)
    (notes : Option String) (now : Nat) : List Position × Option Position :=
  let db2 := db.map (fun p =>
    if p.id == pid then
      { p with
        status := "CLOSED"
        exit_price := some exit_price
        exit_time := some now
        notes := notes
        updated_at := now }
    else p)
  (db2, get_position db2 pid)

/-- PositionService.delete_position: DELETE FROM positions WHERE id = ? AND
status = 'OPEN'; the Bool is cursor.rowcount > 0. -/
def delete_position (db : List Position) (pid : Nat) : List Position × Bool :=
  let db2 := db.filter (fun p => !(p.id == pid && p.status == "OPEN"))
  (db2, decide (db2.length < db.length))

/-- PositionService._calculate_pnl: LONG rows use (current − entry)·qty, any
other position_type falls to the else branch (entry − current)·qty; the
percent variants divide by entry_price, the leveraged variants multiply by
leverage. -/
def calculate_pnl (p : Position) (current_price : ℚ) : PnLData :=
  let pnl :=
    if p.position_type == "LONG" then (current_price - p.entry_price) * p.quantity
    else (p.entry_price - current_price) * p.quantity
  let pnl_percent :=
    if p.position_type == "LONG" then
      (current_price - p.entry_price) / p.entry_price * 100
    else (p.entry_price - current_price) / p.entry_price * 100
  { pnl := pnl
    pnl_percent := pnl_percent
    pnl_with_leverage := pnl * p.leverage
    pnl_with_leverage_percent := pnl_percent * p.leverage }

/-- PositionService._calculate_pnl_for_closed: Python tests
"if not position.exit_price", so both a NULL and a zero exit price yield 0.0;
otherwise the directional price difference times quantity times leverage. -/
def calculate_pnl_for_closed (p : Position) : ℚ :=
  match p.exit_price with
  | none => 0
  | some ep =>
    if ep = 0 then 0
    else
      (if p.position_type == "LONG" then (ep - p.entry_price) * p.quantity
       else (p.entry_price - ep) * p.quantity) * p.leverage

/-- Maximum of a nonempty list of rationals (Python max), 0 on the empty list
(the branch Python never takes). -/
def list_max : List ℚ → ℚ
  | [] => 0
  | h :: t => t.foldl max h

/-- Minimum of a nonempty list of rationals (Python min), 0 on the empty list
(the branch Python never takes). -/
def list_min : List ℚ → ℚ
  | [] => 0
  | h :: t => t.foldl min h

/-- PositionService.get_portfolio_stats: closed rows are split into wins
(pnl > 0) and losses (pnl ≤ 0) by their closed leveraged P&L; every aggregate
falls back to 0.0 when its source list is empty; total_pnl_percent is
hardcoded to 0.0. -/
def get_portfolio_stats (db : List Position) : PortfolioStats :=
  let openPs := db.filter (fun p => p.status == "OPEN")
  let closedPs := db.filter (fun p => p.status == "CLOSED")
  let pnls := closedPs.map calculate_pnl_for_closed
  let wins := pnls.filter (fun x => decide (0 < x))
  let losses := pnls.filter (fun x => !(decide (0 < x)))
  { total_positions := db.length
    open_positions := openPs.length
    closed_positions := closedPs.length
    total_pnl := pnls.sum
    total_pnl_percent := 0
    win_rate :=
      if closedPs.length = 0 then 0
      else (wins.length : ℚ) / (closedPs.length : ℚ) * 100
    largest_win := if wins.isEmpty then 0 else list_max wins
    largest_loss := if losses.isEmpty then 0 else list_min losses
    avg_win := if wins.isEmpty then 0 else wins.sum / (wins.length : ℚ)
    avg_loss := if losses.isEmpty then 0 else losses.sum / (losses.length : ℚ) }

end PositionService

/-- SignalType enum of src/backend/models/schemas.py. -/
inductive SignalType where
  | BUY
  | SELL
  | HOLD
deriving DecidableEq, Repr

/-- TechnicalIndicators pydantic model of src/backend/models/schemas.py
(nine float fields), floats embedded as rationals. -/
structure TechnicalIndicators where
  rsi : ℚ
  macd : ℚ
  macd_signal : ℚ
  bb_upper : ℚ
  bb_middle : ℚ
  bb_lower : ℚ
  volume_ratio : ℚ
  volatility : ℚ
  momentum : ℚ
deriving DecidableEq, Repr

/-- PredictionResponse of src/backend/models/schemas.py, minus the wall-clock
timestamp field (datetime.utcnow is outside the embedding). -/
structure PredictionResponse where
  asset_symbol : String
  signal : SignalType
  confidence : ℚ
  current_price : Option ℚ
  predicted_direction : String
  model_version : String
  indicators : TechnicalIndicators
deriving DecidableEq, Repr

namespace PredictionService

/-- Outcome of the collaborator interactions inside PredictionService.predict:
get_model returning None; the artifact-shape branches that bail out (unknown
dict structure, or an extracted model of None); an exception raised anywhere
in the try block; or a completed inference, carrying the predicted class and
confidence computed at lines 89-90 and the model_manager version string. -/
inductive ModelOutcome where
  | unavailable
  | extraction_failed
  | raised
  | ok (predicted_class : Nat) (confidence : ℚ) (version : String)
deriving DecidableEq, Repr

/-- PredictionService._determine_signal: HOLD below the configured threshold,
else BUY for class 1 and SELL otherwise. -/
def determine_signal (threshold : ℚ) (predicted_class : Nat)
    (confidence : ℚ) : SignalType :=
  if confidence < threshold then SignalType.HOLD
  else if predicted_class == 1 then SignalType.BUY
  else SignalType.SELL

/-- PredictionService._create_dummy_prediction: the randomized draws of
random.choice (the signal) and random.uniform(0.5, 0.95) (the confidence)
enter as parameters; the direction does map HOLD to NEUTRAL here, and the
version tag is the literal "1.0.0-dummy". -/
def create_dummy_prediction (asset_symbol : String)
    (indicators : TechnicalIndicators) (current_price : Option ℚ)
    (drawn_signal : SignalType) (drawn_confidence : ℚ) : PredictionResponse :=
  { asset_symbol := asset_symbol
    signal := drawn_signal
    confidence := drawn_confidence
    current_price := current_price
    predicted_direction :=
      if drawn_signal == SignalType.BUY then "UP"
      else if drawn_signal == SignalType.SELL then "DOWN"
      else "NEUTRAL"
    model_version := "1.0.0-dummy"
    indicators := indicators }

/-- PredictionService.predict: None (no response at all) when get_model
returns None; the dummy prediction when model extraction fails or the
prediction path raises; otherwise a real response whose signal comes from
_determine_signal and whose predicted_direction is UP/DOWN from the class
alone (line 93 — independent of whether the signal is HOLD). -/
def predict (threshold : ℚ) (drawn_signal : SignalType) (drawn_confidence : ℚ)
    (asset_symbol : String) (indicators : TechnicalIndicators)
    (current_price : Option ℚ) : ModelOutcome → Option PredictionResponse
  | ModelOutcome.unavailable => none
  | ModelOutcome.extraction_failed =>
    some (create_dummy_prediction asset_symbol indicators current_price
      drawn_signal drawn_confidence)
  | ModelOutcome.raised =>
    some (create_dummy_prediction asset_symbol indicators current_price
      drawn_signal drawn_confidence)
  | ModelOutcome.ok c p v =>
    some
      { asset_symbol := asset_symbol
        signal := determine_signal threshold c p
        confidence := p
        current_price := current_price
        predicted_direction := if c == 1 then "UP" else "DOWN"
        model_version := v
        indicators := indicators }

end PredictionService

namespace Indicators

/-
TechnicalIndicatorCalculator of src/backend/utils/indicators.py.  A pandas
Series of floats is embedded as a List ℚ in index order, so s.iloc[-1] is
List.getLast and the last entry of a rolling(k) statistic is the statistic
of the final k-element window.  Exact rational division is used where the
source divides floats; division by zero yields 0 in ℚ (the source can
produce inf/nan there only for zero prices, which no claim touches, except
in calculate_rsi where the inf/nan outcomes are spelled out explicitly).
Square roots (pandas .std) are irrational, so the two functions that need
one take the square-root routine as an explicit parameter.
-/

/-- Consecutive differences, prices.diff() without its leading NaN:
entry i is prices[i+1] − prices[i]. -/
def diffs (prices : List ℚ) : List ℚ :=
  List.zipWith (fun a b => a - b) prices.tail prices

/-- Final k-element window of a series (what the last entry of a rolling(k)
statistic ranges over). -/
def last_window (k : Nat) (l : List ℚ) : List ℚ :=
  l.drop (l.length - k)

/-- Sample variance with ddof = 1, the square of pandas Series.std. -/
def sample_variance (l : List ℚ) : ℚ :=
  let m := l.sum / (l.length : ℚ)
  (l.map (fun x => (x - m) ^ 2)).sum / ((l.length : ℚ) - 1)

/-- TechnicalIndicatorCalculator.calculate_rsi.  Below period+1 prices the
neutral 50.0 is returned.  Otherwise avg_gain/avg_loss are the rolling(period)
means of the clipped deltas at the last index.  The float endgame is made
explicit: avg_loss = 0 with avg_gain > 0 gives rs = inf hence rsi = 100.0
(not NaN, so it is returned), and 0/0 gives NaN hence the fallback 50.0;
with avg_loss > 0 the formula 100 − 100/(1 + rs) applies. -/
def calculate_rsi (prices : List ℚ) (period : Nat) : ℚ :=
  if prices.length < period + 1 then 50
  else
    let window := last_window period (diffs prices)
    let avg_gain := (window.map (fun d => max d 0)).sum / (period : ℚ)
    let avg_loss := (window.map (fun d => max (-d) 0)).sum / (period : ℚ)
    if avg_loss = 0 then (if avg_gain = 0 then 50 else 100)
    else 100 - 100 / (1 + avg_gain / avg_loss)

/-- Exponentially weighted mean, Series.ewm(span, adjust=False).mean():
y₀ = x₀ and yᵢ = α·xᵢ + (1−α)·yᵢ₋₁ with α = 2/(span+1); prev carries yᵢ₋₁. -/
def ewm_tail (alpha prev : ℚ) : List ℚ → List ℚ
  | [] => []
  | y :: ys =>
    let v := alpha * y + (1 - alpha) * prev
    v :: ewm_tail alpha v ys

/-- Full ewm(span, adjust=False).mean() series. -/
def ewm_mean (span : Nat) : List ℚ → List ℚ
  | [] => []
  | x :: xs => x :: ewm_tail (2 / ((span : ℚ) + 1)) x xs

/-- TechnicalIndicatorCalculator.calculate_macd: (0.0, 0.0) below slow+signal
prices, else the last entries of the MACD line and its signal line. -/
def calculate_macd (prices : List ℚ) (fast slow signal : Nat) : ℚ × ℚ :=
  if prices.length < slow + signal then (0, 0)
  else
    let macd_line :=
      List.zipWith (fun a b => a - b) (ewm_mean fast prices) (ewm_mean slow prices)
    let signal_line := ewm_mean signal macd_line
    (macd_line.getLastD 0, signal_line.getLastD 0)

/-- TechnicalIndicatorCalculator.calculate_bollinger_bands.  The insufficient
branch reads prices.iloc[-1] before building the degenerate bands, which
raises IndexError on an empty series — embedded as none.  The full branch
returns the rolling mean ± std_dev times the rolling sample deviation. -/
def calculate_bollinger_bands (sqrt : ℚ → ℚ) (prices : List ℚ)
    (period : Nat) (std_dev : ℚ) : Option (ℚ × ℚ × ℚ) :=
  if prices.length < period then
    match prices.getLast? with
    | none => none
    | some last => some (last * 1.02, last, last * 0.98)
  else
    let window := last_window period prices
    let middle := window.sum / (period : ℚ)
    let std := sqrt (sample_variance window)
    some (middle + std * std_dev, middle, middle - std * std_dev)

/-- TechnicalIndicatorCalculator.calculate_volume_ratio: 1.0 below period
entries or on a zero rolling average, else last volume over the rolling
average volume. -/
def calculate_volume_ratio (volumes : List ℚ) (period : Nat) : ℚ :=
  if volumes.length < period then 1
  else
    let avg := (last_window period volumes).sum / (period : ℚ)
    if avg = 0 then 1 else volumes.getLastD 0 / avg

/-- TechnicalIndicatorCalculator.calculate_volatility: 0.01 below period+1
prices, else the rolling(period) sample deviation of the simple returns
pct_change at the last index. -/
def calculate_volatility (sqrt : ℚ → ℚ) (prices : List ℚ) (period : Nat) : ℚ :=
  if prices.length < period + 1 then 0.01
  else
    let returns := List.zipWith (fun a b => (a - b) / b) prices.tail prices
    sqrt (sample_variance (last_window period returns))

/-- TechnicalIndicatorCalculator.calculate_momentum: 0.0 below period+1
prices, else (prices.iloc[-1] − prices.iloc[-period]) / prices.iloc[-period]. -/
def calculate_momentum (prices : List ℚ) (period : Nat) : ℚ :=
  if prices.length < period + 1 then 0
  else
    let base := prices.getD (prices.length - period) 0
    (prices.getLastD 0 - base) / base

end Indicators

/-! Concrete fixtures used to instantiate the theorems below. -/

/-- An open LONG position (the worked example of the spec: entry 100,
quantity 10, leverage 2). -/
def sample_open : Position :=
  { id := 2
    asset_class := "CRYPTO"
    asset_symbol := "BTC"
    position_type := "LONG"
    entry_price := 100
    quantity := 10
    leverage := 2
    entry_time := 0
    exit_price := none
    exit_time := none
    status := "OPEN"
    notes := some "kept"
    created_at := 0
    updated_at := 0 }

/-- The same position after a close at exit price 95. -/
def sample_closed : Position :=
  { sample_open with
    id := 1
    exit_price := some 95
    exit_time := some 3
    status := "CLOSED"
    notes := some "old note"
    updated_at := 3 }

/-- A neutral indicator set. -/
def sample_indicators : TechnicalIndicators :=
  { rsi := 50
    macd := 0
    macd_signal := 0
    bb_upper := 102
    bb_middle := 100
    bb_lower := 98
    volume_ratio := 1
    volatility := 0.01
    momentum := 0 }

/-! Claim theorems. -/

/-- C1 counterexample: update_position on a CLOSED position is not rejected —
at the stored CLOSED position with quantity 10, an update supplying
quantity 5 succeeds and the stored quantity changes to 5. -/
theorem update_closed_rejection_counterexample :
    sample_closed.status = "CLOSED" ∧
    (PositionService.update_position [sample_closed] 1 (some 5) none none 7).2 =
      some { sample_closed with quantity := 5, updated_at := 7 } ∧
    sample_closed.quantity ≠ 5 := by
  decide

/-- C1 (amended): update_position never inspects status; on a CLOSED position
the supplied quantity, leverage and notes are written and updated_at is
bumped exactly as for an OPEN one, and a fully-empty update reads the row
back unchanged. -/
theorem update_mutates_closed_position (p : Position) (q l : ℚ) (n : String)
    (t : Nat) (_hs : p.status = "CLOSED") :
    (PositionService.update_position [p] p.id (some q) (some l) (some n) t).2 =
      some { p with quantity := q, leverage := l, notes := some n, updated_at := t } ∧
    (PositionService.update_position [p] p.id none none none t).2 = some p := by
  constructor
  · simp [PositionService.update_position, PositionService.get_position,
      PositionService.apply_update]
  · simp [PositionService.update_position, PositionService.get_position]

/-- Witness for the amended C1 theorem at the concrete CLOSED fixture. -/
theorem update_mutates_closed_position_witness :
    (PositionService.update_position [sample_closed] sample_closed.id
        (some 5) (some 3) (some "edited") 7).2 =
      some { sample_closed with
        quantity := 5, leverage := 3,
        notes := some "edited", updated_at := 7 } ∧
    (PositionService.update_position [sample_closed] sample_closed.id
        none none none 7).2 = some sample_closed :=
  update_mutates_closed_position sample_closed 5 3 "edited" 7 rfl

/-- C2 counterexample: exit fields are not write-once — re-closing the stored
CLOSED position (exit_price 95, exit_time 3) at price 97 overwrites
exit_price to 97 and exit_time to the new clock value. -/
theorem close_write_once_counterexample :
    sample_closed.status = "CLOSED" ∧
    sample_closed.exit_price = some 95 ∧
    (PositionService.close_position [sample_closed] 1 97 none 9).2.map
        Position.exit_price = some (some 97) ∧
    (PositionService.close_position [sample_closed] 1 97 none 9).2.map
        Position.exit_time = some (some 9) := by
  decide

/-- C2 (amended): close_position on an already-CLOSED position overwrites
exit_price, exit_time, notes and updated_at again (exit fields are not
write-once); status itself is monotonic — after update_position,
close_position or delete_position, every OPEN row of the table descends from
an OPEN row of the same id, so no operation moves a position from CLOSED
back to OPEN. -/
theorem reclose_overwrites_and_status_monotone (p : Position) (ep : ℚ)
    (n : Option String) (t : Nat) (_hs : p.status = "CLOSED") :
    (PositionService.close_position [p] p.id ep n t).2 =
      some { p with
        status := "CLOSED", exit_price := some ep,
        exit_time := some t, notes := n, updated_at := t } ∧
    (∀ (db : List Position) (pid : Nat) (q l : Option ℚ) (ns : Option String)
        (t2 : Nat), ∀ r ∈ (PositionService.update_position db pid q l ns t2).1,
      r.status = "OPEN" → ∃ p2 ∈ db, p2.id = r.id ∧ p2.status = "OPEN") ∧
    (∀ (db : List Position) (pid : Nat) (ep2 : ℚ) (ns : Option String)
        (t2 : Nat), ∀ r ∈ (PositionService.close_position db pid ep2 ns t2).1,
      r.status = "OPEN" → ∃ p2 ∈ db, p2.id = r.id ∧ p2.status = "OPEN") ∧
    (∀ (db : List Position) (pid : Nat),
      ∀ r ∈ (PositionService.delete_position db pid).1,
      r.status = "OPEN" → ∃ p2 ∈ db, p2.id = r.id ∧ p2.status = "OPEN") := by
  refine ⟨?_, ?_, ?_, ?_⟩
  · simp [PositionService.close_position, PositionService.get_position]
  · intro db pid q l ns t2 r hr hopen
    unfold PositionService.update_position at hr
    split at hr
    · exact ⟨r, hr, rfl, hopen⟩
    · simp only [List.mem_map] at hr
      obtain ⟨p2, hp2, hmap⟩ := hr
      refine ⟨p2, hp2, ?_, ?_⟩
      · by_cases h : (p2.id == pid) = true <;>
          simp [h, PositionService.apply_update] at hmap <;>
          simp [← hmap]
      · by_cases h : (p2.id == pid) = true <;>
          simp [h, PositionService.apply_update] at hmap <;>
          simp [← hmap] at hopen ⊢ <;> exact hopen
  · intro db pid ep2 ns t2 r hr hopen
    simp only [PositionService.close_position, List.mem_map] at hr
    obtain ⟨p2, hp2, hmap⟩ := hr
    by_cases h : (p2.id == pid) = true
    · rw [if_pos h] at hmap
      rw [← hmap] at hopen
      simp at hopen
    · rw [if_neg h] at hmap
      subst hmap
      exact ⟨p2, hp2, rfl, hopen⟩
  · intro db pid r hr hopen
    simp only [PositionService.delete_position, List.mem_filter] at hr
    exact ⟨r, hr.1, rfl, hopen⟩

/-- C5: delete_position succeeds exactly when the table holds a position with
the requested id in status OPEN; CLOSED rows always survive the delete; and a
second delete of the same id on the resulting table reports failure
(not-found). -/
theorem delete_only_open (db : List Position) (pid : Nat) :
    ((PositionService.delete_position db pid).2 = true ↔
      ∃ p ∈ db, p.id = pid ∧ p.status = "OPEN") ∧
    (∀ p ∈ db, p.status = "CLOSED" →
      p ∈ (PositionService.delete_position db pid).1) ∧
    (PositionService.delete_position
        (PositionService.delete_position db pid).1 pid).2 = false := by
  refine ⟨?_, ?_, ?_⟩
  · simp only [PositionService.delete_position, decide_eq_true_eq]
    rw [List.length_filter_lt_length_iff_exists]
    constructor
    · rintro ⟨x, hx, hkeep⟩
      refine ⟨x, hx, ?_⟩
      simpa using hkeep
    · rintro ⟨x, hx, h1, h2⟩
      exact ⟨x, hx, by simp [h1, h2]⟩
  · intro p hp hclosed
    simp only [PositionService.delete_position, List.mem_filter]
    refine ⟨hp, ?_⟩
    simp [hclosed]
  · have hidem :
        ((db.filter (fun p => !(p.id == pid && p.status == "OPEN"))).filter
          (fun p => !(p.id == pid && p.status == "OPEN"))) =
        db.filter (fun p => !(p.id == pid && p.status == "OPEN")) :=
      List.filter_eq_self.mpr (fun a ha => (List.mem_filter.mp ha).2)
    simp [PositionService.delete_position, hidem]

/-- Witness for the C5 theorem at a one-row table holding the OPEN fixture:
the delete succeeds and the re-delete fails. -/
theorem delete_only_open_witness :
    (PositionService.delete_position [sample_open] 2).2 = true ∧
    (PositionService.delete_position
        (PositionService.delete_position [sample_open] 2).1 2).2 = false := by
  have h := delete_only_open [sample_open] 2
  exact ⟨h.1.mpr ⟨sample_open, by simp, by decide⟩, h.2.2⟩

/-- C10: closing with no notes argument writes NULL over the stored notes,
and every field of every row other than status, exit_price, exit_time, notes
and updated_at is preserved; rows with a different id are untouched. -/
theorem close_frame (db : List Position) (pid : Nat) (ep : ℚ) (t : Nat) :
    ∀ r ∈ (PositionService.close_position db pid ep none t).1,
      ∃ p ∈ db, r.id = p.id ∧
        (p.id = pid →
          r.notes = none ∧ r.status = "CLOSED" ∧ r.exit_price = some ep ∧
          r.exit_time = some t ∧ r.updated_at = t ∧
          r.asset_class = p.asset_class ∧ r.asset_symbol = p.asset_symbol ∧
          r.position_type = p.position_type ∧ r.entry_price = p.entry_price ∧
          r.quantity = p.quantity ∧ r.leverage = p.leverage ∧
          r.entry_time = p.entry_time ∧ r.created_at = p.created_at) ∧
        (p.id ≠ pid → r = p) := by
  intro r hr
  simp only [PositionService.close_position, List.mem_map] at hr
  obtain ⟨p, hp, hmap⟩ := hr
  by_cases h : (p.id == pid) = true
  · rw [if_pos h] at hmap
    subst hmap
    refine ⟨p, hp, rfl, ?_, ?_⟩
    · exact fun _ =>
        ⟨rfl, rfl, rfl, rfl, rfl, rfl, rfl, rfl, rfl, rfl, rfl, rfl, rfl⟩
    · intro hne
      exact absurd (by simpa using h) hne
  · rw [if_neg h] at hmap
    subst hmap
    refine ⟨p, hp, rfl, ?_, fun _ => rfl⟩
    intro heq
    exact absurd heq (by simpa using h)

/-- The OPEN fixture as stored after close_position at exit price 95 with no
notes at clock 5. -/
def sample_open_after_close : Position :=
  { sample_open with
    status := "CLOSED", exit_price := some 95,
    exit_time := some 5, notes := none, updated_at := 5 }

/-- Witness for the C10 theorem: at the one-row table holding the OPEN
fixture (which carries stored notes), the closed row has NULL notes and
unchanged quantity and entry price. -/
theorem close_frame_witness :
    sample_open_after_close.notes = none ∧
    sample_open_after_close.quantity = sample_open.quantity ∧
    sample_open_after_close.entry_price = sample_open.entry_price := by
  obtain ⟨p, hp, hid, hyes, hno⟩ :=
    close_frame [sample_open] 2 95 5 sample_open_after_close (by decide)
  have hps : p = sample_open := List.mem_singleton.mp hp
  subst hps
  obtain ⟨h1, _, _, _, _, _, _, _, hentry, hq, _, _, _⟩ := hyes rfl
  exact ⟨h1, hq, hentry⟩

/-- C3: the P&L formulas — LONG pnl is (current − entry)·qty and SHORT pnl is
(entry − current)·qty, the percent variants are the signed relative change
times 100, the leveraged variants multiply by leverage, and the closed-P&L
routine agrees with pnl·leverage at a stored positive exit price (the spec
admits only exit_price > 0 through the boundary). -/
theorem pnl_formulas (p : Position) (current : ℚ)
    (_hentry : 0 < p.entry_price) (_hq : 0 < p.quantity)
    (_hl1 : 1 ≤ p.leverage) (_hl2 : p.leverage ≤ 100) :
    (p.position_type = "LONG" →
      (PositionService.calculate_pnl p current).pnl =
        (current - p.entry_price) * p.quantity ∧
      (PositionService.calculate_pnl p current).pnl_percent =
        (current - p.entry_price) / p.entry_price * 100) ∧
    (p.position_type = "SHORT" →
      (PositionService.calculate_pnl p current).pnl =
        (p.entry_price - current) * p.quantity ∧
      (PositionService.calculate_pnl p current).pnl_percent =
        (p.entry_price - current) / p.entry_price * 100) ∧
    (PositionService.calculate_pnl p current).pnl_with_leverage =
      (PositionService.calculate_pnl p current).pnl * p.leverage ∧
    (PositionService.calculate_pnl p current).pnl_with_leverage_percent =
      (PositionService.calculate_pnl p current).pnl_percent * p.leverage ∧
    (p.exit_price = some current → 0 < current →
      PositionService.calculate_pnl_for_closed p =
        (PositionService.calculate_pnl p current).pnl * p.leverage) := by
  refine ⟨?_, ?_, rfl, rfl, ?_⟩
  · intro h
    have hb : (p.position_type == "LONG") = true := by rw [h]; rfl
    constructor <;> simp [PositionService.calculate_pnl, hb]
  · intro h
    have hb : (p.position_type == "LONG") = false := by rw [h]; rfl
    constructor <;> simp [PositionService.calculate_pnl, hb]
  · intro he hpos
    have hne : current ≠ 0 := ne_of_gt hpos
    simp only [PositionService.calculate_pnl_for_closed, he, hne, if_false]
    rfl

/-- Witness for the C3 theorem: the spec's worked example — LONG, entry 100,
quantity 10, leverage 2, current 110 gives pnl 100, pnl_pct 10, leveraged
pnl 200 and leveraged pnl_pct 20. -/
theorem pnl_formulas_witness :
    (PositionService.calculate_pnl sample_open 110).pnl = 100 ∧
    (PositionService.calculate_pnl sample_open 110).pnl_percent = 10 ∧
    (PositionService.calculate_pnl sample_open 110).pnl_with_leverage = 200 ∧
    (PositionService.calculate_pnl sample_open 110).pnl_with_leverage_percent
      = 20 := by
  obtain ⟨hL, _, hlev, hlevp, _⟩ :=
    pnl_formulas sample_open 110 (by norm_num [sample_open])
      (by norm_num [sample_open]) (by norm_num [sample_open])
      (by norm_num [sample_open])
  obtain ⟨hp, hpc⟩ := hL rfl
  rw [hlev, hlevp, hp, hpc]
  norm_num [sample_open]

/-- Length of the positive entries of a mapped list, as a filter on the
originals. -/
theorem filter_pos_map_length (f : Position → ℚ) (l : List Position) :
    ((l.map f).filter (fun x => decide (0 < x))).length =
      (l.filter (fun p => decide (0 < f p))).length := by
  induction l with
  | nil => rfl
  | cons a t ih => by_cases h : 0 < f a <;> simp [List.filter_cons, h, ih]

/-- C7: over a table with no CLOSED row, every closed-trade aggregate of
get_portfolio_stats is zero; and over any table, win_rate is the number of
CLOSED rows whose leveraged closed P&L is positive, divided by the number of
CLOSED rows, times 100. -/
theorem portfolio_stats_spec (db : List Position) :
    (db.filter (fun p => p.status == "CLOSED") = [] →
      (PositionService.get_portfolio_stats db).win_rate = 0 ∧
      (PositionService.get_portfolio_stats db).largest_win = 0 ∧
      (PositionService.get_portfolio_stats db).largest_loss = 0 ∧
      (PositionService.get_portfolio_stats db).avg_win = 0 ∧
      (PositionService.get_portfolio_stats db).avg_loss = 0 ∧
      (PositionService.get_portfolio_stats db).total_pnl = 0) ∧
    ((db.filter (fun p => p.status == "CLOSED")).length ≠ 0 →
      (PositionService.get_portfolio_stats db).win_rate =
        (((db.filter (fun p => p.status == "CLOSED")).filter
            (fun p => decide (0 < PositionService.calculate_pnl_for_closed p))).length : ℚ) /
          ((db.filter (fun p => p.status == "CLOSED")).length : ℚ) * 100) := by
  constructor
  · intro h
    simp [PositionService.get_portfolio_stats, h]
  · intro h0
    simp only [PositionService.get_portfolio_stats]
    rw [filter_pos_map_length]
    simp [h0]

/-- Witness for the C7 theorem: a table holding one OPEN and one CLOSED
position — the CLOSED fixture lost (exit 95 below entry 100), so win_rate
is 0/1·100 = 0; and the all-OPEN table has every closed aggregate at zero. -/
theorem portfolio_stats_spec_witness :
    (PositionService.get_portfolio_stats [sample_open]).win_rate = 0 ∧
    (PositionService.get_portfolio_stats [sample_open]).total_pnl = 0 ∧
    (PositionService.get_portfolio_stats [sample_open, sample_closed]).win_rate
      = 0 := by
  have h1 := (portfolio_stats_spec [sample_open]).1 (by decide)
  have h2 := (portfolio_stats_spec [sample_open, sample_closed]).2 (by decide)
  refine ⟨h1.1, h1.2.2.2.2.2, ?_⟩
  rw [h2]
  have hf1 : ([sample_open, sample_closed].filter
      (fun p => p.status == "CLOSED")) = [sample_closed] := by decide
  have hval : PositionService.calculate_pnl_for_closed sample_closed = -100 := by
    norm_num [PositionService.calculate_pnl_for_closed, sample_closed,
      sample_open]
  rw [hf1]
  simp [List.filter_cons, hval]

/-- Witness for the amended C2 theorem: the re-close overwrite at the
concrete CLOSED fixture. -/
theorem reclose_overwrites_witness :
    (PositionService.close_position [sample_closed] sample_closed.id 97
        none 9).2 =
      some { sample_closed with
        status := "CLOSED", exit_price := some 97,
        exit_time := some 9, notes := none, updated_at := 9 } :=
  (reclose_overwrites_and_status_monotone sample_closed 97 none 9 rfl).1

/-- C4 counterexample: with threshold 1/2, predicted class 1 and confidence
2/5 (below threshold), predict emits signal HOLD but predicted_direction
"UP" — not the NEUTRAL the claim requires. -/
theorem hold_direction_counterexample :
    (PredictionService.predict (1/2) SignalType.BUY (3/4) "BTC"
        sample_indicators none
        (PredictionService.ModelOutcome.ok 1 (2/5) "1.0.0")).map
      (fun r => (r.signal, r.predicted_direction)) =
      some (SignalType.HOLD, "UP") ∧ "UP" ≠ "NEUTRAL" := by
  constructor
  · norm_num [PredictionService.predict, PredictionService.determine_signal]
  · decide

/-- C4 (amended): below the threshold the signal is HOLD, at or above it the
signal is BUY for class 1 and SELL otherwise; but the predicted_direction
emitted on the real-model path is UP for class 1 and DOWN for class 0
regardless of the signal — NEUTRAL is never produced on this path. -/
theorem signal_threshold_policy (t p : ℚ) (c : Nat) (ds : SignalType)
    (dc : ℚ) (sym : String) (ind : TechnicalIndicators) (cp : Option ℚ)
    (v : String) :
    (p < t → PredictionService.determine_signal t c p = SignalType.HOLD) ∧
    (t ≤ p → c = 1 →
      PredictionService.determine_signal t c p = SignalType.BUY) ∧
    (t ≤ p → c ≠ 1 →
      PredictionService.determine_signal t c p = SignalType.SELL) ∧
    (PredictionService.predict t ds dc sym ind cp
        (PredictionService.ModelOutcome.ok c p v)).map
      (fun r => r.predicted_direction) =
      some (if c = 1 then "UP" else "DOWN") := by
  refine ⟨?_, ?_, ?_, ?_⟩
  · intro h
    simp [PredictionService.determine_signal, h]
  · intro h hc
    simp [PredictionService.determine_signal, not_lt.mpr h, hc]
  · intro h hc
    simp [PredictionService.determine_signal, not_lt.mpr h, hc]
  · simp only [PredictionService.predict, Option.map_some]
    by_cases hc : c = 1 <;> simp [hc]

/-- Witness for the amended C4 theorem at threshold 1/2, class 1,
confidence 2/5: the signal is HOLD while the direction stays "UP". -/
theorem signal_threshold_policy_witness :
    PredictionService.determine_signal (1/2) 1 (2/5) = SignalType.HOLD ∧
    (PredictionService.predict (1/2) SignalType.SELL (3/4) "ETH"
        sample_indicators none
        (PredictionService.ModelOutcome.ok 1 (2/5) "1.0.0")).map
      (fun r => r.predicted_direction) = some "UP" := by
  have h := signal_threshold_policy (1/2) (2/5) 1 SignalType.SELL (3/4)
    "ETH" sample_indicators none "1.0.0"
  refine ⟨h.1 (by norm_num), ?_⟩
  rw [h.2.2.2]
  norm_num

/-- C6 counterexample: when get_model returns None (the model for the symbol
is unavailable), predict returns None — a silent absence, not a fallback
signal. -/
theorem model_unavailable_counterexample :
    PredictionService.predict (1/2) SignalType.BUY (3/4) "BTC"
      sample_indicators none PredictionService.ModelOutcome.unavailable
      = none := rfl

/-- C6 (amended): when model extraction fails or the prediction path raises,
predict does emit a dummy response whose model_version is "1.0.0-dummy"
(ending in "-dummy") and whose confidence is the random.uniform(0.5, 0.95)
draw, hence within [1/2, 19/20]; but when the model snapshot itself is
unavailable, predict returns None rather than a fallback signal. -/
theorem degraded_mode_fallback (t : ℚ) (ds : SignalType) (dc : ℚ)
    (sym : String) (ind : TechnicalIndicators) (cp : Option ℚ)
    (o : PredictionService.ModelOutcome)
    (hdc1 : 1/2 ≤ dc) (hdc2 : dc ≤ 19/20)
    (ho : o = PredictionService.ModelOutcome.extraction_failed ∨
      o = PredictionService.ModelOutcome.raised) :
    (∃ r, PredictionService.predict t ds dc sym ind cp o = some r ∧
      r.model_version = "1.0.0" ++ "-dummy" ∧
      1/2 ≤ r.confidence ∧ r.confidence ≤ 19/20) ∧
    PredictionService.predict t ds dc sym ind cp
      PredictionService.ModelOutcome.unavailable = none := by
  refine ⟨?_, rfl⟩
  rcases ho with ho | ho <;> subst ho <;>
    exact ⟨_, rfl, rfl, hdc1, hdc2⟩

/-- Witness for the amended C6 theorem at a failed model extraction with
drawn confidence 3/4. -/
theorem degraded_mode_fallback_witness :
    (∃ r, PredictionService.predict (1/2) SignalType.HOLD (3/4) "BTC"
        sample_indicators none
        PredictionService.ModelOutcome.extraction_failed = some r ∧
      r.model_version = "1.0.0" ++ "-dummy" ∧
      1/2 ≤ r.confidence ∧ r.confidence ≤ 19/20) ∧
    PredictionService.predict (1/2) SignalType.HOLD (3/4) "BTC"
      sample_indicators none PredictionService.ModelOutcome.unavailable
      = none :=
  degraded_mode_fallback (1/2) SignalType.HOLD (3/4) "BTC"
    sample_indicators none PredictionService.ModelOutcome.extraction_failed
    (by norm_num) (by norm_num) (Or.inl rfl)

/-- Sum of a list clipped entrywise to nonnegative values is nonnegative. -/
theorem sum_max_nonneg (w : List ℚ) : 0 ≤ (w.map (fun d => max d 0)).sum :=
  List.sum_nonneg (fun x hx => by
    obtain ⟨d, _, rfl⟩ := List.mem_map.mp hx
    exact le_max_right d 0)

/-- Sum of the negated entries clipped to nonnegative values is
nonnegative. -/
theorem sum_max_neg_nonneg (w : List ℚ) :
    0 ≤ (w.map (fun d => max (-d) 0)).sum :=
  List.sum_nonneg (fun x hx => by
    obtain ⟨d, _, rfl⟩ := List.mem_map.mp hx
    exact le_max_right (-d) 0)

/-- The RSI endgame expression lies in [0, 100] whenever both averages are
nonnegative. -/
theorem rsi_formula_range (g l : ℚ) (hg : 0 ≤ g) (hl : 0 ≤ l) :
    0 ≤ (if l = 0 then (if g = 0 then (50 : ℚ) else 100)
      else 100 - 100 / (1 + g / l)) ∧
    (if l = 0 then (if g = 0 then (50 : ℚ) else 100)
      else 100 - 100 / (1 + g / l)) ≤ 100 := by
  by_cases h0 : l = 0
  · by_cases hg0 : g = 0
    · simp [h0, hg0]
      norm_num
    · simp [h0, hg0]
  · have hrs : 0 ≤ g / l := div_nonneg hg hl
    have h1 : (0 : ℚ) < 1 + g / l := by linarith
    have h2 : 100 / (1 + g / l) ≤ 100 :=
      div_le_self (by norm_num) (by linarith)
    have h3 : 0 ≤ 100 / (1 + g / l) := div_nonneg (by norm_num) (le_of_lt h1)
    rw [if_neg h0]
    constructor <;> linarith

/-- C8: calculate_rsi at period 14 always lies in [0, 100], and is exactly
the neutral 50 whenever fewer than 15 prices are supplied. -/
theorem rsi_range_and_default (prices : List ℚ) :
    0 ≤ Indicators.calculate_rsi prices 14 ∧
    Indicators.calculate_rsi prices 14 ≤ 100 ∧
    (prices.length < 15 → Indicators.calculate_rsi prices 14 = 50) := by
  unfold Indicators.calculate_rsi
  by_cases h : prices.length < 14 + 1
  · rw [if_pos h]
    norm_num
  · rw [if_neg h]
    have h15 : ¬ prices.length < 15 := h
    have hg : 0 ≤ ((Indicators.last_window 14 (Indicators.diffs prices)).map
        (fun d => max d 0)).sum / ((14 : ℕ) : ℚ) :=
      div_nonneg (sum_max_nonneg _) (by norm_num)
    have hl : 0 ≤ ((Indicators.last_window 14 (Indicators.diffs prices)).map
        (fun d => max (-d) 0)).sum / ((14 : ℕ) : ℚ) :=
      div_nonneg (sum_max_neg_nonneg _) (by norm_num)
    have hr := rsi_formula_range _ _ hg hl
    exact ⟨hr.1, hr.2, fun hlt => absurd hlt h15⟩

/-- Witness for the C8 theorem at the two-price series [1, 2]: the RSI is the
neutral default 50 and nonnegative. -/
theorem rsi_range_and_default_witness :
    Indicators.calculate_rsi [1, 2] 14 = 50 ∧
    0 ≤ Indicators.calculate_rsi [1, 2] 14 := by
  have h := rsi_range_and_default [1, 2]
  exact ⟨h.2.2 (by decide), h.1⟩

/-- C9 counterexample: calculate_bollinger_bands on the empty series — a
short-history input — does not return the degenerate default bands; it reads
the last price first and raises IndexError (embedded as none). -/
theorem bollinger_empty_counterexample :
    Indicators.calculate_bollinger_bands (fun q => q) [] 20 2 = none := rfl

/-- C9 (amended): on short-history inputs, rsi, macd, volume_ratio,
volatility and momentum return their documented defaults for every series
including the empty one, and bollinger returns
(last·1.02, last, last·0.98) for every nonempty series shorter than its
period — but on the empty series bollinger raises (none) instead of
degrading. -/
theorem indicator_short_defaults (sqrt : ℚ → ℚ) (prices volumes : List ℚ) :
    (prices.length < 15 → Indicators.calculate_rsi prices 14 = 50) ∧
    (prices.length < 35 → Indicators.calculate_macd prices 12 26 9 = (0, 0)) ∧
    (prices ≠ [] → prices.length < 20 →
      ∃ last, prices.getLast? = some last ∧
        Indicators.calculate_bollinger_bands sqrt prices 20 2 =
          some (last * 1.02, last, last * 0.98)) ∧
    (volumes.length < 20 → Indicators.calculate_volume_ratio volumes 20 = 1) ∧
    (prices.length < 21 → Indicators.calculate_volatility sqrt prices 20
      = 0.01) ∧
    (prices.length < 11 → Indicators.calculate_momentum prices 10 = 0) ∧
    Indicators.calculate_bollinger_bands sqrt [] 20 2 = none := by
  refine ⟨?_, ?_, ?_, ?_, ?_, ?_, rfl⟩
  · intro h
    unfold Indicators.calculate_rsi
    rw [if_pos (by omega)]
  · intro h
    unfold Indicators.calculate_macd
    rw [if_pos (by omega)]
  · intro hne h
    obtain ⟨last, hlast⟩ := Option.isSome_iff_exists.mp
      (List.getLast?_isSome.mpr hne)
    refine ⟨last, hlast, ?_⟩
    unfold Indicators.calculate_bollinger_bands
    rw [if_pos h, hlast]
  · intro h
    unfold Indicators.calculate_volume_ratio
    rw [if_pos h]
  · intro h
    unfold Indicators.calculate_volatility
    rw [if_pos (by omega)]
  · intro h
    unfold Indicators.calculate_momentum
    rw [if_pos (by omega)]

/-- Witness for the amended C9 theorem: the one-price series [50] yields
bollinger bands (51, 50, 49), macd (0, 0), and volume ratio 1 on no
volumes. -/
theorem indicator_short_defaults_witness :
    Indicators.calculate_bollinger_bands (fun q => q) [50] 20 2 =
      some (51, 50, 49) ∧
    Indicators.calculate_macd [50] 12 26 9 = (0, 0) ∧
    Indicators.calculate_volume_ratio [] 20 = 1 := by
  have h := indicator_short_defaults (fun q => q) [50] []
  obtain ⟨last, hlast, hbb⟩ := h.2.2.1 (by decide) (by decide)
  have h50 : last = (50 : ℚ) := by
    have h5 : some (50 : ℚ) = some last := hlast
    exact (Option.some.inj h5).symm
  subst h50
  rw [hbb]
  refine ⟨by norm_num, h.2.1 (by decide), h.2.2.2.1 (by decide)⟩

end Yavuzx
